import Mathlib

/-!
Verification development for the esphome-rs connection/message engine.

The Rust sources are embedded shallowly at two levels:

* a byte level, for the wire framer (`receive_message_header`'s marker and
  varint reads, and the two variants of `receive_message_body` found in
  `src/connection.rs` and `src/device.rs`);
* a frame level, for the interception loop, request/reply correlation, the
  state cache and entity enumeration.  At this level the input stream is a
  list of frames, each carrying its declared length, its numeric type tag
  and a decoded payload (the payload codec is an external collaborator, so
  a frame's body is represented by the decoded shape the engine observes).

Rust panics are modelled as a distinct outcome (`RResult.panic`), separate
from the `Result::Err` channel used by the `?` operator.
-/

namespace EspHome

/-- Latest known value of an entity (enum `State` in `model.rs`).  The `f32`
payload of a measurement is never interpreted by the engine, only stored and
returned verbatim, so it is carried here as its 32-bit pattern. -/
inductive State where
  | Binary (b : Bool)
  | Measurement (bits : Nat)
  | Text (s : String)
  deriving DecidableEq, Repr

/-- Enum `MessageType` in `model.rs` (same numeric values as in `device.rs`). -/
inductive MessageType where
  | HelloRequest
  | HelloResponse
  | ConnectRequest
  | ConnectResponse
  | DisconnectRequest
  | DisconnectResponse
  | PingRequest
  | PingResponse
  | DeviceInfoRequest
  | DeviceInfoResponse
  | ListEntitiesRequest
  | ListEntitiesBinarySensorResponse
  | ListEntitiesCoverResponse
  | ListEntitiesFanResponse
  | ListEntitiesLightResponse
  | ListEntitiesSensorResponse
  | ListEntitiesSwitchResponse
  | ListEntitiesTextSensorResponse
  | ListEntitiesDoneResponse
  | SubscribeStatesRequest
  | BinarySensorStateResponse
  | CoverStateResponse
  | FanStateResponse
  | LightStateResponse
  | SensorStateResponse
  | SwitchStateResponse
  | TextSensorStateResponse
  | ClimateStateResponse
  | NumberStateResponse
  | SelectStateResponse
  | GetTimeRequest
  | GetTimeResponse
  | ListEntitiesServicesResponse
  | ListEntitiesCameraResponse
  | ListEntitiesClimateResponse
  | ListEntitiesNumberResponse
  | ListEntitiesSelectResponse
  deriving DecidableEq, Repr

/-- Numeric discriminant of each `MessageType` variant (`as u32` in Rust). -/
def MessageType.toU32 : MessageType → Nat
  | .HelloRequest => 1
  | .HelloResponse => 2
  | .ConnectRequest => 3
  | .ConnectResponse => 4
  | .DisconnectRequest => 5
  | .DisconnectResponse => 6
  | .PingRequest => 7
  | .PingResponse => 8
  | .DeviceInfoRequest => 9
  | .DeviceInfoResponse => 10
  | .ListEntitiesRequest => 11
  | .ListEntitiesBinarySensorResponse => 12
  | .ListEntitiesCoverResponse => 13
  | .ListEntitiesFanResponse => 14
  | .ListEntitiesLightResponse => 15
  | .ListEntitiesSensorResponse => 16
  | .ListEntitiesSwitchResponse => 17
  | .ListEntitiesTextSensorResponse => 18
  | .ListEntitiesDoneResponse => 19
  | .SubscribeStatesRequest => 20
  | .BinarySensorStateResponse => 21
  | .CoverStateResponse => 22
  | .FanStateResponse => 23
  | .LightStateResponse => 24
  | .SensorStateResponse => 25
  | .SwitchStateResponse => 26
  | .TextSensorStateResponse => 27
  | .ClimateStateResponse => 47
  | .NumberStateResponse => 50
  | .SelectStateResponse => 53
  | .GetTimeRequest => 36
  | .GetTimeResponse => 37
  | .ListEntitiesServicesResponse => 41
  | .ListEntitiesCameraResponse => 43
  | .ListEntitiesClimateResponse => 46
  | .ListEntitiesNumberResponse => 49
  | .ListEntitiesSelectResponse => 52

/-- `FromPrimitive::from_u32` as derived for `MessageType` by `num_derive`:
the inverse of the discriminant assignment, `none` on every other number. -/
def MessageType.fromU32 : Nat → Option MessageType
  | 1 => some .HelloRequest
  | 2 => some .HelloResponse
  | 3 => some .ConnectRequest
  | 4 => some .ConnectResponse
  | 5 => some .DisconnectRequest
  | 6 => some .DisconnectResponse
  | 7 => some .PingRequest
  | 8 => some .PingResponse
  | 9 => some .DeviceInfoRequest
  | 10 => some .DeviceInfoResponse
  | 11 => some .ListEntitiesRequest
  | 12 => some .ListEntitiesBinarySensorResponse
  | 13 => some .ListEntitiesCoverResponse
  | 14 => some .ListEntitiesFanResponse
  | 15 => some .ListEntitiesLightResponse
  | 16 => some .ListEntitiesSensorResponse
  | 17 => some .ListEntitiesSwitchResponse
  | 18 => some .ListEntitiesTextSensorResponse
  | 19 => some .ListEntitiesDoneResponse
  | 20 => some .SubscribeStatesRequest
  | 21 => some .BinarySensorStateResponse
  | 22 => some .CoverStateResponse
  | 23 => some .FanStateResponse
  | 24 => some .LightStateResponse
  | 25 => some .SensorStateResponse
  | 26 => some .SwitchStateResponse
  | 27 => some .TextSensorStateResponse
  | 47 => some .ClimateStateResponse
  | 50 => some .NumberStateResponse
  | 53 => some .SelectStateResponse
  | 36 => some .GetTimeRequest
  | 37 => some .GetTimeResponse
  | 41 => some .ListEntitiesServicesResponse
  | 43 => some .ListEntitiesCameraResponse
  | 46 => some .ListEntitiesClimateResponse
  | 49 => some .ListEntitiesNumberResponse
  | 52 => some .ListEntitiesSelectResponse
  | _ => none

/-- Enum `EspHomeError` in `model.rs` (error payloads other than the
`UnexpectedResponse` fields are not inspected by the engine and are elided). -/
inductive EspHomeError where
  | InvalidPassword
  | UnexpectedResponse (expected : MessageType) (received : Nat)
  | Io
  | Protobuf
  | SystemTime
  deriving DecidableEq, Repr

/-- Outcome of running a piece of the engine: a value, a propagated
`Result::Err`, or a Rust panic (which aborts rather than returning). -/
inductive RResult (α : Type) where
  | ok (a : α)
  | err (e : EspHomeError)
  | panic (msg : String)

/-- Struct `MessageHeader`: declared payload length and numeric type tag. -/
structure MessageHeader where
  message_length : Nat
  message_type : Nat
  deriving DecidableEq, Repr

/-! ## Byte-level wire framer -/

/-- `CodedInputStream::read_raw_varint32`: little-endian base-128 groups,
truncated to 32 bits; fails with an I/O error if the stream ends first. -/
def read_raw_varint32_go : List Nat → Nat → Nat → Except EspHomeError (Nat × List Nat)
  | [], _, _ => .error .Io
  | b :: rest, shift, acc =>
    if b < 128 then .ok ((acc + b * 2 ^ shift) % 2 ^ 32, rest)
    else read_raw_varint32_go rest (shift + 7) (acc + (b - 128) * 2 ^ shift)

/-- Entry point of the varint reader. -/
def read_raw_varint32 (input : List Nat) : Except EspHomeError (Nat × List Nat) :=
  read_raw_varint32_go input 0 0

/-- Byte-level model of the header read in `Connection::receive_message_header`
(`connection.rs` lines 173-181, identically `device.rs` lines 273-281): one
marker byte is read into a scratch buffer via `read_exact` and then dropped —
the source never compares it with anything — followed by the two varints. -/
def receive_message_header_bytes (input : List Nat) :
    Except EspHomeError (MessageHeader × List Nat) :=
  match input with
  | [] => .error .Io
  | _marker :: rest =>
    match read_raw_varint32 rest with
    | .error e => .error e
    | .ok (len, r1) =>
      match read_raw_varint32 r1 with
      | .error e => .error e
      | .ok (tp, r2) => .ok (⟨len, tp⟩, r2)

/-- `Connection::receive_message_body` of `device.rs` (lines 190-197): a heap
buffer of exactly `message_length` zero bytes is allocated and `read_exact`
fills it, so exactly `len` bytes are consumed whatever `len` is.  Returns the
payload bytes and the remaining stream. -/
def receive_message_body_bytes (len : Nat) (input : List Nat) :
    Except EspHomeError (List Nat × List Nat) :=
  if len ≤ input.length then .ok (input.take len, input.drop len)
  else .error .Io

/-- `Connection::receive_message_body` of `connection.rs` (lines 89-100): a
fixed `[MaybeUninit<u8>; 4096]` stack array is sliced as
`message_bytes[0..message_length]` before reading; for a declared length
greater than 4096 that slicing panics, and for smaller lengths the read goes
through the fixed uninitialized buffer (then transmuted to `[u8; 4096]`). -/
def receive_message_body_fixed (len : Nat) (input : List Nat) :
    RResult (List Nat × List Nat) :=
  if 4096 < len then
    .panic ("range end index " ++ toString len ++ " out of range for slice of length 4096")
  else if len ≤ input.length then .ok (input.take len, input.drop len)
  else .err .Io

/-! ## Frame-level model of the connection engine

The payload codec is an external collaborator (`protobuf`), so at this level
a frame carries the decoded shape of its payload.  Decoding a field-less
message (`PingRequest`, `DisconnectRequest`, `GetTimeRequest`,
`ListEntitiesDoneResponse`, …) succeeds on any payload; decoding one of the
structured messages the engine inspects requires the corresponding shape. -/

/-- Decoded payload shapes the engine observes. -/
inductive Body where
  | empty
  | getTime (epoch_seconds : Nat)
  | sensorState (key : Nat) (state : Nat)
  | binaryState (key : Nat) (state : Bool)
  | textState (key : Nat) (state : String)
  | listEntity (object_id unique_id name : String) (key : Nat)
  | listServices (name : String) (key : Nat)
  | raw (bytes : List Nat)
  deriving DecidableEq, Repr

/-- One frame as delivered by the wire framer: declared payload length,
numeric type tag, payload. -/
structure Frame where
  len : Nat
  tag : Nat
  body : Body
  deriving DecidableEq, Repr

/-- Entity key carried by a state-update payload the engine decodes, if any. -/
def Frame.stateKey (f : Frame) : Option Nat :=
  match f.body with
  | .sensorState k _ => some k
  | .binaryState k _ => some k
  | .textState k _ => some k
  | _ => none

/-- Connection-owned mutable data of struct `Connection`: the frames written
so far (tag and payload, in order, modelling `cos`), the state cache
(`states: HashMap<u32, State>` as a lookup function) and the wall clock the
`GetTimeRequest` handler samples. -/
structure Conn where
  output : List (Nat × Body)
  states : Nat → Option State
  now : Nat

/-- `HashMap::insert`: later updates overwrite earlier ones at the same key. -/
def insertState (m : Nat → Option State) (k : Nat) (v : State) : Nat → Option State :=
  fun x => if x = k then some v else m x

/-- `Connection::send_message`: encode, write marker 0, varint length, varint
tag, payload bytes, flush.  At frame level: append one (tag, body) frame to
the output. -/
def send_message (mt : MessageType) (m : Body) (c : Conn) : Conn :=
  { c with output := c.output ++ [(mt.toU32, m)] }

/-- `Connection::process_unsolicited` (`connection.rs` lines 107-169): given a
header (with, at this level, its frame's payload), auto-handle the push subset
and report whether the frame was consumed.  Tags in the `MessageType` enum
that are not push kinds fall to `Ok(false)`; tags outside the enum hit the
`None` arm, which panics. -/
def process_unsolicited (f : Frame) (c : Conn) : RResult (Bool × Conn) :=
  match MessageType.fromU32 f.tag with
  | some .PingRequest =>
    .ok (true, send_message .PingResponse .empty c)
  | some .DisconnectRequest =>
    .ok (true, send_message .DisconnectResponse .empty c)
  | some .GetTimeRequest =>
    .ok (true, send_message .GetTimeResponse (.getTime (c.now % 2 ^ 32)) c)
  | some .SensorStateResponse =>
    match f.body with
    | .sensorState k v => .ok (true, { c with states := insertState c.states k (.Measurement v) })
    | _ => .err .Protobuf
  | some .BinarySensorStateResponse =>
    match f.body with
    | .binaryState k b => .ok (true, { c with states := insertState c.states k (.Binary b) })
    | _ => .err .Protobuf
  | some .TextSensorStateResponse =>
    match f.body with
    | .textState k s => .ok (true, { c with states := insertState c.states k (.Text s) })
    | _ => .err .Protobuf
  | some .CoverStateResponse
  | some .FanStateResponse
  | some .LightStateResponse
  | some .SwitchStateResponse
  | some .ClimateStateResponse
  | some .NumberStateResponse
  | some .SelectStateResponse =>
    .ok (true, c)
  | some _ => .ok (false, c)
  | none => .panic ("unknown message type received: " ++ toString f.tag)

/-- `Connection::receive_message_header` (`connection.rs` lines 171-188): loop
reading one header at a time, auto-handling push frames via
`process_unsolicited`, until a frame is not consumed; that frame is returned
together with the rest of the input.  An exhausted input stream is an I/O
error from `read_exact`. -/
def receive_message_header : List Frame → Conn → RResult (Frame × List Frame × Conn)
  | [], _ => .err .Io
  | f :: rest, c =>
    match process_unsolicited f c with
    | .ok (true, c') => receive_message_header rest c'
    | .ok (false, c') => .ok (f, rest, c')
    | .err e => .err e
    | .panic s => .panic s

/-- `Connection::receive_message` (`connection.rs` lines 72-87): read the next
application header; if its tag differs from the expected reply tag, fail with
`UnexpectedResponse` carrying both; otherwise read and decode the body. -/
def receive_message (rt : MessageType) (input : List Frame) (c : Conn) :
    RResult (Body × List Frame × Conn) :=
  match receive_message_header input c with
  | .ok (f, rest, c') =>
    if f.tag = rt.toU32 then .ok (f.body, rest, c')
    else .err (.UnexpectedResponse rt f.tag)
  | .err e => .err e
  | .panic s => .panic s

/-- `Connection::request` (`connection.rs` lines 190-202): send the request,
then await the expected reply. -/
def request (mt : MessageType) (m : Body) (rt : MessageType)
    (input : List Frame) (c : Conn) : RResult (Body × List Frame × Conn) :=
  receive_message rt input (send_message mt m c)

/-! ## Entity model and state queries -/

/-- Struct `EntityInfo` of `device.rs`. -/
structure EntityInfo where
  name : String
  key : Nat
  deriving DecidableEq, Repr

/-- Struct `ExtendedInfo` of `device.rs`. -/
structure ExtendedInfo where
  object_id : String
  unique_id : String
  deriving DecidableEq, Repr

/-- Enum `Entity` of `device.rs` (the file that defines `list_entities`). -/
inductive Entity where
  | BinarySensor (i : EntityInfo) (e : ExtendedInfo)
  | Camera (i : EntityInfo) (e : ExtendedInfo)
  | Climate (i : EntityInfo) (e : ExtendedInfo)
  | Cover (i : EntityInfo) (e : ExtendedInfo)
  | Fan (i : EntityInfo) (e : ExtendedInfo)
  | Light (i : EntityInfo) (e : ExtendedInfo)
  | Number (i : EntityInfo) (e : ExtendedInfo)
  | Select (i : EntityInfo) (e : ExtendedInfo)
  | Sensor (i : EntityInfo) (e : ExtendedInfo)
  | Services (i : EntityInfo)
  | Switch (i : EntityInfo) (e : ExtendedInfo)
  | TextSensor (i : EntityInfo) (e : ExtendedInfo)
  deriving DecidableEq, Repr

/-- `Entity::key`: the shared `EntityInfo.key` of every variant. -/
def Entity.key : Entity → Nat
  | .BinarySensor i _ | .Camera i _ | .Climate i _ | .Cover i _ | .Fan i _
  | .Light i _ | .Number i _ | .Select i _ | .Sensor i _ | .Switch i _
  | .TextSensor i _ => i.key
  | .Services i => i.key

/-- `Connection::get_last_state` (`connection.rs` lines 65-70): look the
entity's key up in the state cache; both arms return `Ok`.  The receiver is
`&mut self`, so the (unchanged) connection is returned alongside. -/
def get_last_state (c : Conn) (e : Entity) : Except EspHomeError (Option State) × Conn :=
  match c.states e.key with
  | some s => (.ok (some s), c)
  | none => (.ok none, c)

/-! ## Session objects -/

/-- Struct `Device` (`device.rs` lines 316-319): the post-Hello,
pre-authenticate session object.  The `HelloResponse` payload is retained as
its decoded body. -/
structure Device where
  conn : Conn
  hello_information : Body

/-- Struct `AuthenticatedDevice` (`device.rs` lines 445-447). -/
structure AuthenticatedDevice where
  device : Device

/-- `Device::ping` (`device.rs` lines 352-359): a `request` with
`PingRequest`/`PingResponse`, defined on the unauthenticated `Device`. -/
def Device.ping (input : List Frame) (d : Device) :
    RResult (Unit × List Frame × Device) :=
  match request .PingRequest .empty .PingResponse input d.conn with
  | .ok (_, rest, c') => .ok ((), rest, ⟨c', d.hello_information⟩)
  | .err e => .err e
  | .panic s => .panic s

/-- `AuthenticatedDevice::get_time` (`device.rs` lines 454-461): a `request`
with `GetTimeRequest`/`GetTimeResponse`, returning `epoch_seconds`. -/
def AuthenticatedDevice.get_time (input : List Frame) (a : AuthenticatedDevice) :
    RResult (Nat × List Frame × AuthenticatedDevice) :=
  match request .GetTimeRequest .empty .GetTimeResponse input a.device.conn with
  | .ok (.getTime epoch, rest, c') => .ok (epoch, rest, ⟨⟨c', a.device.hello_information⟩⟩)
  | .ok (_, _, _) => .err .Protobuf
  | .err e => .err e
  | .panic s => .panic s

/-- `AuthenticatedDevice::device_info` (`device.rs` lines 463-470): a
`request` with `DeviceInfoRequest`/`DeviceInfoResponse`. -/
def AuthenticatedDevice.device_info (input : List Frame) (a : AuthenticatedDevice) :
    RResult (Body × List Frame × AuthenticatedDevice) :=
  match request .DeviceInfoRequest .empty .DeviceInfoResponse input a.device.conn with
  | .ok (b, rest, c') => .ok (b, rest, ⟨⟨c', a.device.hello_information⟩⟩)
  | .err e => .err e
  | .panic s => .panic s

/-! ## Entity enumeration -/

/-- A successful `receive_message_header` consumes at least one input frame. -/
theorem receive_message_header_length_lt :
    ∀ (input : List Frame) (c : Conn) (f : Frame) (rest : List Frame) (c' : Conn),
      receive_message_header input c = .ok (f, rest, c') → rest.length < input.length := by
  intro input
  induction input with
  | nil => intro c f rest c' h; exact absurd h (by simp [receive_message_header])
  | cons g gs ih =>
    intro c f rest c' h
    rw [receive_message_header] at h
    rcases hp : process_unsolicited g c with ⟨b, c1⟩ | e | s <;> rw [hp] at h
    · cases b with
      | true =>
        simp only at h
        exact Nat.lt_trans (ih c1 f rest c' h) (Nat.lt_succ_self _)
      | false =>
        simp only [RResult.ok.injEq, Prod.mk.injEq] at h
        obtain ⟨-, hrest, -⟩ := h
        subst hrest
        exact Nat.lt_succ_self _
    · exact absurd h (by simp)
    · exact absurd h (by simp)

/-- Loop body of `AuthenticatedDevice::list_entities` (`device.rs` lines
494-613): read application headers through the interception loop, decode each
as the entity response its tag indicates, accumulate entities in arrival
order; a `ListEntitiesDoneResponse` header terminates the loop after its body
is consumed; any other tag panics (`unexpected reply`). -/
def list_entities_loop (input : List Frame) (c : Conn) (acc : List Entity) :
    RResult (List Entity × List Frame × Conn) :=
  match hrec : receive_message_header input c with
  | .ok (f, rest, c') =>
    match MessageType.fromU32 f.tag with
    | some .ListEntitiesSensorResponse =>
      match f.body with
      | .listEntity o u n k => list_entities_loop rest c' (acc ++ [.Sensor ⟨n, k⟩ ⟨o, u⟩])
      | _ => .err .Protobuf
    | some .ListEntitiesBinarySensorResponse =>
      match f.body with
      | .listEntity o u n k => list_entities_loop rest c' (acc ++ [.BinarySensor ⟨n, k⟩ ⟨o, u⟩])
      | _ => .err .Protobuf
    | some .ListEntitiesCoverResponse =>
      match f.body with
      | .listEntity o u n k => list_entities_loop rest c' (acc ++ [.Cover ⟨n, k⟩ ⟨o, u⟩])
      | _ => .err .Protobuf
    | some .ListEntitiesFanResponse =>
      match f.body with
      | .listEntity o u n k => list_entities_loop rest c' (acc ++ [.Fan ⟨n, k⟩ ⟨o, u⟩])
      | _ => .err .Protobuf
    | some .ListEntitiesLightResponse =>
      match f.body with
      | .listEntity o u n k => list_entities_loop rest c' (acc ++ [.Light ⟨n, k⟩ ⟨o, u⟩])
      | _ => .err .Protobuf
    | some .ListEntitiesSwitchResponse =>
      match f.body with
      | .listEntity o u n k => list_entities_loop rest c' (acc ++ [.Switch ⟨n, k⟩ ⟨o, u⟩])
      | _ => .err .Protobuf
    | some .ListEntitiesTextSensorResponse =>
      match f.body with
      | .listEntity o u n k => list_entities_loop rest c' (acc ++ [.TextSensor ⟨n, k⟩ ⟨o, u⟩])
      | _ => .err .Protobuf
    | some .ListEntitiesCameraResponse =>
      match f.body with
      | .listEntity o u n k => list_entities_loop rest c' (acc ++ [.Camera ⟨n, k⟩ ⟨o, u⟩])
      | _ => .err .Protobuf
    | some .ListEntitiesClimateResponse =>
      match f.body with
      | .listEntity o u n k => list_entities_loop rest c' (acc ++ [.Climate ⟨n, k⟩ ⟨o, u⟩])
      | _ => .err .Protobuf
    | some .ListEntitiesServicesResponse =>
      match f.body with
      | .listServices n k => list_entities_loop rest c' (acc ++ [.Services ⟨n, k⟩])
      | _ => .err .Protobuf
    | some .ListEntitiesSelectResponse =>
      match f.body with
      | .listEntity o u n k => list_entities_loop rest c' (acc ++ [.Select ⟨n, k⟩ ⟨o, u⟩])
      | _ => .err .Protobuf
    | some .ListEntitiesNumberResponse =>
      match f.body with
      | .listEntity o u n k => list_entities_loop rest c' (acc ++ [.Number ⟨n, k⟩ ⟨o, u⟩])
      | _ => .err .Protobuf
    | some .ListEntitiesDoneResponse => .ok (acc, rest, c')
    | _ => .panic "unexpected reply"
  | .err e => .err e
  | .panic s => .panic s
termination_by input.length
decreasing_by
  all_goals exact receive_message_header_length_lt _ _ _ _ _ hrec

/-- `AuthenticatedDevice::list_entities` (`device.rs` lines 486-616): send
`ListEntitiesRequest`, then run the accumulation loop starting empty. -/
def AuthenticatedDevice.list_entities (input : List Frame) (a : AuthenticatedDevice) :
    RResult (List Entity × List Frame × AuthenticatedDevice) :=
  match list_entities_loop input (send_message .ListEntitiesRequest .empty a.device.conn) [] with
  | .ok (es, rest, c') => .ok (es, rest, ⟨⟨c', a.device.hello_information⟩⟩)
  | .err e => .err e
  | .panic s => .panic s

/-! ## Claims -/

/-- C10: for every connection state and every entity, `get_last_state` always
returns `Ok` — its value is exactly the cache lookup at the entity's key, the
error branch is unreachable, and the connection (hence the state cache) is
returned unchanged. -/
theorem c10_get_last_state_total (c : Conn) (e : Entity) :
    get_last_state c e = (Except.ok (c.states e.key), c) := by
  unfold get_last_state
  cases c.states e.key <;> rfl

/-- C3 counterexample: a frame whose marker byte is 1 (not 0) is accepted by
the header reader, which returns the header `(length 3, tag 25)` with the
payload bytes unconsumed instead of failing with a framing error. -/
theorem c3_counterexample :
    receive_message_header_bytes [1, 3, 25, 9, 9, 9] = .ok (⟨3, 25⟩, [9, 9, 9]) := rfl

/-- C3 amended: the header reader consumes exactly one marker byte but never
validates it — for any marker value whatsoever it returns the declared
(length, tag) pair without consuming the payload. -/
theorem c3_marker_not_validated (m len tag : Nat) (rest : List Nat)
    (hlen : len < 128) (htag : tag < 128) :
    receive_message_header_bytes (m :: len :: tag :: rest) = .ok (⟨len, tag⟩, rest) := by
  have h1 : (0 + len * 2 ^ 0) % 2 ^ 32 = len := by
    rw [Nat.zero_add, Nat.pow_zero, Nat.mul_one]
    exact Nat.mod_eq_of_lt (lt_trans hlen (by norm_num))
  have h2 : (0 + tag * 2 ^ 0) % 2 ^ 32 = tag := by
    rw [Nat.zero_add, Nat.pow_zero, Nat.mul_one]
    exact Nat.mod_eq_of_lt (lt_trans htag (by norm_num))
  simp only [receive_message_header_bytes, read_raw_varint32, read_raw_varint32_go,
    if_pos hlen, if_pos htag, h1, h2]

/-- C3 witness: a nonzero marker byte 7 on the wire, followed by length 5 and
tag 16, is accepted and the payload is left unread. -/
theorem c3_marker_not_validated_witness :
    receive_message_header_bytes [7, 5, 16, 1, 2] = .ok (⟨5, 16⟩, [1, 2]) :=
  c3_marker_not_validated 7 5 16 [1, 2] (by decide) (by decide)

/-- C4: the body reader of `connection.rs` slices a fixed 4096-byte
uninitialized stack buffer by the declared length, so a declared length of
5000 panics instead of reading 5000 bytes into a buffer of size 5000; the
later `device.rs` variant does size its buffer exactly to the declared length
and reads exactly that many bytes. -/
theorem c4_fixed_buffer_code_bug :
    receive_message_body_fixed 5000 []
        = .panic "range end index 5000 out of range for slice of length 4096"
      ∧ receive_message_body_bytes 5 [10, 20, 30, 40, 50, 60]
        = .ok ([10, 20, 30, 40, 50], [60]) := by
  constructor <;> rfl

/-- C1 counterexample: a frame with unknown tag 99 and declared length 5 makes
the header-reading loop panic (aborting the process) instead of skipping the
5 body bytes and continuing; had it continued, the next frame (tag 8) would
have been returned, as the second conjunct shows on the tail stream. -/
theorem c1_counterexample :
    receive_message_header [⟨5, 99, .raw [1, 2, 3, 4, 5]⟩, ⟨0, 8, .empty⟩]
        ⟨[], fun _ => none, 0⟩
      = .panic "unknown message type received: 99"
    ∧ receive_message_header [⟨0, 8, .empty⟩] ⟨[], fun _ => none, 0⟩
      = .ok (⟨0, 8, .empty⟩, [], ⟨[], fun _ => none, 0⟩) := by
  constructor <;> rfl

/-- C1 amended: a frame whose type tag is not in the known `MessageType` set
is fatal, not recoverable — the header-reading loop panics with the unknown
tag, reading no further frames, instead of skipping the declared body length
and surfacing a warning. -/
theorem c1_unknown_tag_panics (f : Frame) (rest : List Frame) (c : Conn)
    (h : MessageType.fromU32 f.tag = none) :
    receive_message_header (f :: rest) c
      = .panic ("unknown message type received: " ++ toString f.tag) := by
  unfold receive_message_header process_unsolicited
  rw [h]

/-- C1 witness: the amended claim at tag 99. -/
theorem c1_unknown_tag_panics_witness :
    receive_message_header [⟨5, 99, .raw [1, 2, 3, 4, 5]⟩] ⟨[], fun _ => none, 0⟩
      = .panic ("unknown message type received: " ++ toString 99) :=
  c1_unknown_tag_panics ⟨5, 99, .raw [1, 2, 3, 4, 5]⟩ [] ⟨[], fun _ => none, 0⟩ rfl

/-- C2: if the first non-push header produced by the interception loop after
sending the request carries a tag different from the expected reply tag, the
whole `request` fails with `UnexpectedResponse` carrying the expected type and
the received tag — in particular it does not return the mismatched payload. -/
theorem c2_unexpected_response (mt : MessageType) (m : Body) (rt : MessageType)
    (input : List Frame) (c : Conn) (f : Frame) (rest : List Frame) (c' : Conn)
    (h : receive_message_header input (send_message mt m c) = .ok (f, rest, c'))
    (hne : f.tag ≠ rt.toU32) :
    request mt m rt input c = .err (.UnexpectedResponse rt f.tag) := by
  unfold request receive_message
  rw [h]
  simp [hne]

/-- C2 witness: a ping request answered by a `ConnectResponse` frame (tag 4)
fails with `UnexpectedResponse` carrying `PingResponse` and 4. -/
theorem c2_unexpected_response_witness :
    request .PingRequest .empty .PingResponse [⟨0, 4, .empty⟩] ⟨[], fun _ => none, 0⟩
      = .err (.UnexpectedResponse .PingResponse 4) :=
  c2_unexpected_response .PingRequest .empty .PingResponse [⟨0, 4, .empty⟩]
    ⟨[], fun _ => none, 0⟩ ⟨0, 4, .empty⟩ [] ⟨[(7, .empty)], fun _ => none, 0⟩ rfl
    (by decide)

/-- C5: a ping request issued against a stream that first delivers a
server-initiated `PingRequest` frame (tag 7) and then the real `PingResponse`
frame (tag 8) auto-answers the server's ping — the output contains the
caller's request frame and exactly one `PingResponse` frame — and returns the
real reply's payload to the caller, with the state cache untouched. -/
theorem c5_push_transparency (l1 l2 : Nat) (b1 b2 : Body)
    (st : Nat → Option State) (now : Nat) :
    request .PingRequest .empty .PingResponse [⟨l1, 7, b1⟩, ⟨l2, 8, b2⟩] ⟨[], st, now⟩
      = .ok (b2, [], ⟨[(7, .empty), (8, .empty)], st, now⟩) := rfl

/-- C8 counterexample: an unauthenticated `Device` (the post-Hello,
pre-authenticate session object) does expose `ping`, and calling it succeeds
without any authentication having happened. -/
theorem c8_counterexample :
    Device.ping [⟨0, 8, .empty⟩] ⟨⟨[], fun _ => none, 0⟩, .empty⟩
      = .ok ((), [], ⟨⟨[(7, Body.empty)], fun _ => none, 0⟩, .empty⟩) := rfl

/-- C8 amended: `get_time` and `device_info` are methods of
`AuthenticatedDevice` only, but `ping` is exposed on the unauthenticated
`Device`, so a caller can ping before authenticating: on any pre-auth device
it sends the `PingRequest` frame and succeeds once the reply arrives. -/
theorem c8_ping_before_authentication (l : Nat) (b : Body) (rest : List Frame)
    (c : Conn) (hello : Body) :
    Device.ping (⟨l, 8, b⟩ :: rest) ⟨c, hello⟩
      = .ok ((), rest, ⟨⟨c.output ++ [(7, .empty)], c.states, c.now⟩, hello⟩) := rfl

/-- C6: auto-handling two `SensorStateResponse` pushes for key `k` carrying
values `v1` then `v2` (as f32 bit patterns) leaves the cache at `k` holding
`Measurement v2` — the later update overwrites the earlier one — while a key
never pushed still reads back as `none`; both observed through
`get_last_state`. -/
theorem c6_state_cache_overwrite (k v1 v2 k' : Nat) (st : Nat → Option State)
    (now l1 l2 : Nat) (nm o u : String)
    (h1 : st k' = none) (h2 : k' ≠ k) :
    ∃ c' : Conn,
      receive_message_header
          [⟨l1, 25, .sensorState k v1⟩, ⟨l2, 25, .sensorState k v2⟩, ⟨0, 2, .empty⟩]
          ⟨[], st, now⟩
        = .ok (⟨0, 2, .empty⟩, [], c')
      ∧ (get_last_state c' (.Sensor ⟨nm, k⟩ ⟨o, u⟩)).1 = .ok (some (.Measurement v2))
      ∧ (get_last_state c' (.Sensor ⟨nm, k'⟩ ⟨o, u⟩)).1 = .ok none := by
  refine ⟨⟨[], insertState (insertState st k (.Measurement v1)) k (.Measurement v2), now⟩,
    rfl, ?_, ?_⟩
  · simp [get_last_state, insertState, Entity.key]
  · simp [get_last_state, insertState, Entity.key, h1, h2]

/-- C6 witness: key 5 pushed with the f32 bit patterns of 1.0 then 2.0 reads
back as the 2.0 measurement, and untouched key 6 reads back as none. -/
theorem c6_state_cache_overwrite_witness :
    ∃ c' : Conn,
      receive_message_header
          [⟨4, 25, .sensorState 5 1065353216⟩, ⟨4, 25, .sensorState 5 1073741824⟩,
            ⟨0, 2, .empty⟩]
          ⟨[], fun _ => none, 0⟩
        = .ok (⟨0, 2, .empty⟩, [], c')
      ∧ (get_last_state c' (.Sensor ⟨"s", 5⟩ ⟨"o", "u"⟩)).1
          = .ok (some (.Measurement 1073741824))
      ∧ (get_last_state c' (.Sensor ⟨"s", 6⟩ ⟨"o", "u"⟩)).1 = .ok none :=
  c6_state_cache_overwrite 5 1065353216 1073741824 6 (fun _ => none) 0 4 4 "s" "o" "u"
    rfl (by decide)

/-- C9: whatever `process_unsolicited` does to a frame, the only state-cache
entry that may change is the one at the key carried by the frame's decoded
state payload (if any), and no entry is ever removed. -/
theorem c9_push_touches_only_its_key (f : Frame) (c : Conn) (b : Bool) (c' : Conn)
    (h : process_unsolicited f c = .ok (b, c')) :
    (∀ k', f.stateKey ≠ some k' → c'.states k' = c.states k')
    ∧ (∀ k', (c.states k').isSome → (c'.states k').isSome) := by
  unfold process_unsolicited at h
  split at h <;>
    first
    | contradiction
    | (simp only [RResult.ok.injEq, Prod.mk.injEq] at h
       obtain ⟨-, h2⟩ := h
       subst h2
       exact ⟨fun k' _ => rfl, fun k' hs => hs⟩)
    | (split at h <;>
        first
        | contradiction
        | (rename_i k0 v0 hbody
           simp only [RResult.ok.injEq, Prod.mk.injEq] at h
           obtain ⟨-, h2⟩ := h
           subst h2
           have hsk : f.stateKey = some k0 := by simp [Frame.stateKey, hbody]
           constructor
           · intro k' hk
             rw [hsk] at hk
             have hkk : k' ≠ k0 := fun hh => hk (by rw [hh])
             simp [insertState, hkk]
           · intro k' hs
             by_cases hkk : k' = k0
             · simp [insertState, hkk]
             · simpa [insertState, hkk] using hs))

/-- C9 witness: a sensor push for key 5 leaves the entry at key 6 unchanged,
and cannot delete the entry at key 5. -/
theorem c9_push_touches_only_its_key_witness :
    (⟨[], insertState (fun _ => none) 5 (.Measurement 77), 0⟩ : Conn).states 6
      = (⟨[], fun _ => none, 0⟩ : Conn).states 6 :=
  (c9_push_touches_only_its_key ⟨2, 25, .sensorState 5 77⟩ ⟨[], fun _ => none, 0⟩ true
    ⟨[], insertState (fun _ => none) 5 (.Measurement 77), 0⟩ rfl).1 6 (by decide)

/-- Specification-side description of one `ListEntities⟨Kind⟩Response` frame:
the entity kind together with the fields the device sends for it (Services
carries only name and key). -/
inductive EntSpec where
  | binarySensor (o u n : String) (k : Nat)
  | camera (o u n : String) (k : Nat)
  | climate (o u n : String) (k : Nat)
  | cover (o u n : String) (k : Nat)
  | fan (o u n : String) (k : Nat)
  | light (o u n : String) (k : Nat)
  | number (o u n : String) (k : Nat)
  | select (o u n : String) (k : Nat)
  | sensor (o u n : String) (k : Nat)
  | services (n : String) (k : Nat)
  | switch (o u n : String) (k : Nat)
  | textSensor (o u n : String) (k : Nat)
  deriving DecidableEq, Repr

/-- Wire frame carrying the entity response, tagged by its kind's tag. -/
def EntSpec.toFrame : EntSpec → Frame
  | .binarySensor o u n k => ⟨0, 12, .listEntity o u n k⟩
  | .camera o u n k => ⟨0, 43, .listEntity o u n k⟩
  | .climate o u n k => ⟨0, 46, .listEntity o u n k⟩
  | .cover o u n k => ⟨0, 13, .listEntity o u n k⟩
  | .fan o u n k => ⟨0, 14, .listEntity o u n k⟩
  | .light o u n k => ⟨0, 15, .listEntity o u n k⟩
  | .number o u n k => ⟨0, 49, .listEntity o u n k⟩
  | .select o u n k => ⟨0, 52, .listEntity o u n k⟩
  | .sensor o u n k => ⟨0, 16, .listEntity o u n k⟩
  | .services n k => ⟨0, 41, .listServices n k⟩
  | .switch o u n k => ⟨0, 17, .listEntity o u n k⟩
  | .textSensor o u n k => ⟨0, 18, .listEntity o u n k⟩

/-- The `Entity` value `list_entities` constructs for that response. -/
def EntSpec.toEntity : EntSpec → Entity
  | .binarySensor o u n k => .BinarySensor ⟨n, k⟩ ⟨o, u⟩
  | .camera o u n k => .Camera ⟨n, k⟩ ⟨o, u⟩
  | .climate o u n k => .Climate ⟨n, k⟩ ⟨o, u⟩
  | .cover o u n k => .Cover ⟨n, k⟩ ⟨o, u⟩
  | .fan o u n k => .Fan ⟨n, k⟩ ⟨o, u⟩
  | .light o u n k => .Light ⟨n, k⟩ ⟨o, u⟩
  | .number o u n k => .Number ⟨n, k⟩ ⟨o, u⟩
  | .select o u n k => .Select ⟨n, k⟩ ⟨o, u⟩
  | .sensor o u n k => .Sensor ⟨n, k⟩ ⟨o, u⟩
  | .services n k => .Services ⟨n, k⟩
  | .switch o u n k => .Switch ⟨n, k⟩ ⟨o, u⟩
  | .textSensor o u n k => .TextSensor ⟨n, k⟩ ⟨o, u⟩

/-- Accumulation invariant of the `list_entities` loop: a stream of entity
responses followed by the Done sentinel yields the corresponding entities in
arrival order, consumes the Done frame, leaves every later frame unread and
leaves the connection untouched. -/
theorem list_entities_loop_spec (es : List EntSpec) (extra : List Frame) (c : Conn) :
    ∀ acc : List Entity,
      list_entities_loop (es.map EntSpec.toFrame ++ ⟨0, 19, .empty⟩ :: extra) c acc
        = .ok (acc ++ es.map EntSpec.toEntity, extra, c) := by
  induction es with
  | nil =>
    intro acc
    unfold list_entities_loop
    simp [receive_message_header, process_unsolicited, MessageType.fromU32]
  | cons e es ih =>
    intro acc
    cases e <;>
      (simp only [EntSpec.toFrame, EntSpec.toEntity, List.map_cons, List.cons_append]
       unfold list_entities_loop
       simp only [receive_message_header, process_unsolicited, MessageType.fromU32]
       rw [ih]
       simp)

/-- C7: `list_entities` against a stream of entity responses followed by the
Done sentinel sends one `ListEntitiesRequest` frame (tag 11), returns the
accumulated entities in arrival order, consumes the Done frame's body, and
reads no frame beyond the Done sentinel — in particular one
`ListEntitiesSensorResponse` then Done yields the one-element list holding a
`Sensor` entity with the sent name and key. -/
theorem c7_list_entities_enumeration (es : List EntSpec) (extra : List Frame)
    (c : Conn) (hello : Body) :
    AuthenticatedDevice.list_entities (es.map EntSpec.toFrame ++ ⟨0, 19, .empty⟩ :: extra)
        ⟨⟨c, hello⟩⟩
      = .ok (es.map EntSpec.toEntity, extra,
          ⟨⟨⟨c.output ++ [(11, .empty)], c.states, c.now⟩, hello⟩⟩) := by
  unfold AuthenticatedDevice.list_entities
  rw [list_entities_loop_spec]
  simp [send_message, MessageType.toU32]

end EspHome
